import Mathlib

/-
Verification of the OpenVINO.GenAI.NET native bridge
(src/native/whisper_wrapper.cpp, src/native/whisper_wrapper.hpp).

The bridge exposes two families of C entry points (a whisper speech pipeline
and an LLM text pipeline).  Every status-returning entry point has the shape

    if (<some required pointer is null>) return OV_STATUS_INVALID_C_PARAM;
    WHISPER_WRAPPER_TRY_CATCH({ <body> });

The development below embeds each entry point as a total Lean function.
Pointer arguments become Option values (none = NULL); out-pointers that are
only written through become a Bool recording whether they are non-null, and
the value stored through them is returned in the `written` field of the
result (none = the location was never written, i.e. left unchanged).  Calls
into the wrapped native library have externally determined outcomes, so they
are passed in as a NativeOutcome parameter.  size_t arithmetic is modelled on
Nat with an explicit wrap at 2^64 where the source can underflow.  Machine
float values are never computed with by the bridge (only copied), so they are
modelled as opaque scalars.
-/

set_option linter.unusedVariables false

namespace WhisperWrap

/-- Status codes of the bridge, whisper_wrapper.hpp lines 17-36. -/
inductive ov_status_e where
  | OV_STATUS_OK
  | OV_STATUS_GENERAL_ERROR
  | OV_STATUS_NOT_IMPLEMENTED
  | OV_STATUS_NETWORK_NOT_LOADED
  | OV_STATUS_PARAMETER_MISMATCH
  | OV_STATUS_NOT_FOUND
  | OV_STATUS_OUT_OF_BOUNDS
  | OV_STATUS_UNEXPECTED
  | OV_STATUS_REQUEST_BUSY
  | OV_STATUS_RESULT_NOT_READY
  | OV_STATUS_NOT_ALLOCATED
  | OV_STATUS_INFER_NOT_STARTED
  | OV_STATUS_NETWORK_NOT_READ
  | OV_STATUS_INFER_CANCELLED
  | OV_STATUS_INVALID_C_PARAM
  | OV_STATUS_UNKNOWN_C_ERROR
  | OV_STATUS_NOT_IMPLEMENT_C_METHOD
  | OV_STATUS_UNKNOW_EXCEPTION
deriving DecidableEq, Repr

/-- The integer value of each status code (whisper_wrapper.hpp lines 17-36). -/
def ov_status_e.code : ov_status_e → Int
  | .OV_STATUS_OK => 0
  | .OV_STATUS_GENERAL_ERROR => -1
  | .OV_STATUS_NOT_IMPLEMENTED => -2
  | .OV_STATUS_NETWORK_NOT_LOADED => -3
  | .OV_STATUS_PARAMETER_MISMATCH => -4
  | .OV_STATUS_NOT_FOUND => -5
  | .OV_STATUS_OUT_OF_BOUNDS => -6
  | .OV_STATUS_UNEXPECTED => -7
  | .OV_STATUS_REQUEST_BUSY => -8
  | .OV_STATUS_RESULT_NOT_READY => -9
  | .OV_STATUS_NOT_ALLOCATED => -10
  | .OV_STATUS_INFER_NOT_STARTED => -11
  | .OV_STATUS_NETWORK_NOT_READ => -12
  | .OV_STATUS_INFER_CANCELLED => -13
  | .OV_STATUS_INVALID_C_PARAM => -14
  | .OV_STATUS_UNKNOWN_C_ERROR => -15
  | .OV_STATUS_NOT_IMPLEMENT_C_METHOD => -16
  | .OV_STATUS_UNKNOW_EXCEPTION => -17

/-- Contents of a C byte string (what a non-null const char* points at,
without the terminating NUL). -/
abbrev CStr := List Char

/-- A machine float value.  The bridge never performs float arithmetic, it
only copies float values across the boundary, so they are modelled as opaque
scalars. -/
abbrev F32 := Int

/-- One past the largest size_t value. -/
def USIZE_MOD : Nat := 2 ^ 64

/-- size_t subtraction of 1: wraps to 2^64 - 1 when the operand is 0, exactly
as the unsigned `output_size - 1` in the source does. -/
def usize_sub_one (n : Nat) : Nat := (n + (USIZE_MOD - 1)) % USIZE_MOD

/-- Outcome of one call into the wrapped native library: a value, a thrown
std::exception-derived error, or a fault of any other type. -/
inductive NativeOutcome (α : Type) where
  | ok (a : α)
  | stdExc
  | otherExc
deriving DecidableEq

/-- How the guarded region of one boundary call ends: it runs to its end, it
executes an explicit `return s` statement, or an exception escapes it.  The
payload is what was stored through the call's out parameter up to that point
(none = nothing was written). -/
inductive BodyOutcome (ε : Type) where
  | completes (eff : ε)
  | earlyReturn (s : ov_status_e) (eff : ε)
  | stdExc (eff : ε)
  | otherExc (eff : ε)
deriving DecidableEq

/-- The WHISPER_WRAPPER_TRY_CATCH macro, whisper_wrapper.cpp lines 12-20:
fall-through reports OV_STATUS_OK, an explicit in-body return keeps its
status, catch (const std::exception&) reports OV_STATUS_GENERAL_ERROR and
catch (...) reports OV_STATUS_UNKNOW_EXCEPTION. -/
def WHISPER_WRAPPER_TRY_CATCH {ε : Type} : BodyOutcome ε → ov_status_e × ε
  | .completes e => (.OV_STATUS_OK, e)
  | .earlyReturn s e => (s, e)
  | .stdExc e => (.OV_STATUS_GENERAL_ERROR, e)
  | .otherExc e => (.OV_STATUS_UNKNOW_EXCEPTION, e)

/-- Observable outcome of one boundary call: the returned status, the value
stored through the call's out parameter (none = the out location was not
written, i.e. left unchanged from its value before the call), and whether the
guarded body was entered at all (false = the null-pointer check
short-circuited before touching the native library). -/
structure OpResult (ω : Type) where
  status : ov_status_e
  written : Option ω
  entered : Bool
deriving DecidableEq, Repr

/-- The short-circuit result of a failed null-pointer check: invalid-argument
status, nothing written, the guarded body never entered. -/
def invalidParam {ω : Type} : OpResult ω :=
  ⟨.OV_STATUS_INVALID_C_PARAM, none, false⟩

/-- Run a guarded body through the try/catch discipline. -/
def runBody {ω : Type} (b : BodyOutcome (Option ω)) : OpResult ω :=
  ⟨(WHISPER_WRAPPER_TRY_CATCH b).1, (WHISPER_WRAPPER_TRY_CATCH b).2, true⟩

/-- Effect of a free entry point (these return void and report nothing). -/
inductive FreeAction where
  | noop
  | deallocated
deriving DecidableEq, Repr

/-- ov::genai::WhisperGenerationConfig, as touched by the bridge setters. -/
structure WhisperGenerationConfig where
  language : Option CStr := none
  task : Option CStr := none
  return_timestamps : Bool := false
  initial_prompt : Option CStr := none
  hotwords : Option CStr := none
  max_initial_timestamp_index : Nat := 0
  decoder_start_token_id : Int := 0
  suppress_tokens : List Int := []
  begin_suppress_tokens : List Int := []
deriving DecidableEq

/-- The native ov::genai::WhisperPipeline as observable through the bridge:
the arguments its constructor received (model path, device, the property map
forwarded to the engine configuration) and its current generation config. -/
structure WhisperPipeline where
  models_path : CStr
  device : CStr
  properties : List (CStr × CStr)
  generation_config : WhisperGenerationConfig
deriving DecidableEq

/-- struct WhisperPipelineWrapper, whisper_wrapper.cpp lines 23-25. -/
structure WhisperPipelineWrapper where
  pipeline : WhisperPipeline
deriving DecidableEq

/-- struct WhisperConfigWrapper, whisper_wrapper.cpp lines 27-29. -/
structure WhisperConfigWrapper where
  config : WhisperGenerationConfig
deriving DecidableEq

/-- A mean/standard-deviation pair of the native perf metrics. -/
structure MeanStdPair where
  mean : F32
  std : F32
deriving DecidableEq

/-- ov::genai::PerfMetrics, as read by the bridge. -/
structure PerfMetrics where
  features_extraction_duration : MeanStdPair
deriving DecidableEq

/-- One timestamped chunk of the native whisper results. -/
structure WhisperDecodedResultChunk where
  start_ts : F32
  end_ts : F32
  text : CStr
deriving DecidableEq

/-- The C struct whisper_result_chunk, whisper_wrapper.hpp lines 39-43. -/
structure whisper_result_chunk where
  start_time : F32
  end_time : F32
  text : CStr
deriving DecidableEq

/-- ov::genai::WhisperDecodedResults, as read by the bridge. -/
structure WhisperDecodedResults where
  texts : List CStr := []
  scores : List F32 := []
  chunks : List WhisperDecodedResultChunk := []
  perf_metrics : PerfMetrics := ⟨⟨0, 0⟩⟩
deriving DecidableEq

/-- struct WhisperResultWrapper, whisper_wrapper.cpp lines 31-35.  The two
cache vectors are declared by the source but never filled by any entry
point. -/
structure WhisperResultWrapper where
  results : WhisperDecodedResults
  text_cache : List CStr := []
  chunk_cache : List whisper_result_chunk := []
deriving DecidableEq

/-- struct WhisperPerfMetricsWrapper, whisper_wrapper.cpp lines 37-39. -/
structure WhisperPerfMetricsWrapper where
  metrics : PerfMetrics
deriving DecidableEq

/-- ov_genai_whisper_pipeline_create, whisper_wrapper.cpp lines 60-77.
`call_props` are the trailing key/value arguments present at a call site
(e.g. test_whisper_npu_cache.c line 50); the C signature declares no
parameter after `pipe`, so the body has no access to them.  `ctor` is the
externally determined outcome of the native WhisperPipeline constructor,
which the body invokes with the model path and device only (lines 72-74): on
success the constructed pipeline carries the empty property map. -/
def ov_genai_whisper_pipeline_create
    (models_path device : Option CStr)
    (property_args_size : Nat)
    (call_props : List (CStr × CStr))
    (pipe : Bool)
    (ctor : NativeOutcome WhisperGenerationConfig) :
    OpResult WhisperPipelineWrapper :=
  if models_path.isNone || device.isNone || !pipe then
    invalidParam
  else
    match models_path, device with
    | some mp, some dev =>
        runBody (match ctor with
          | .ok cfg => .completes (some ⟨⟨mp, dev, [], cfg⟩⟩)
          | .stdExc => .stdExc none
          | .otherExc => .otherExc none)
    | _, _ => invalidParam

/-- ov_genai_whisper_pipeline_free, whisper_wrapper.cpp lines 79-83. -/
def ov_genai_whisper_pipeline_free
    (pipe : Option WhisperPipelineWrapper) : FreeAction :=
  match pipe with
  | none => .noop
  | some _ => .deallocated

/-- ov_genai_whisper_pipeline_generate, whisper_wrapper.cpp lines 85-113.
`raw_speech_input` is the float region [ptr, ptr + raw_speech_input_size)
handed to the native call; `config` is the optional config handle (only its
null-ness selects between the two native generate overloads); `native` is the
externally determined outcome of the native generate call. -/
def ov_genai_whisper_pipeline_generate
    (pipe : Option WhisperPipelineWrapper)
    (raw_speech_input : Option (List F32))
    (config : Option WhisperConfigWrapper)
    (results : Bool)
    (native : NativeOutcome WhisperDecodedResults) :
    OpResult WhisperResultWrapper :=
  if pipe.isNone || raw_speech_input.isNone || !results then
    invalidParam
  else
    runBody (match native with
      | .ok r => .completes (some ⟨r, [], []⟩)
      | .stdExc => .stdExc none
      | .otherExc => .otherExc none)

/-- ov_genai_whisper_pipeline_get_generation_config, whisper_wrapper.cpp
lines 115-130: a fresh copy of the pipeline's current config.  `native` is
the externally determined outcome of the native get_generation_config call
(a call into the wrapped library, so it may raise either kind of fault); on
success the copy made is the pipeline's current config. -/
def ov_genai_whisper_pipeline_get_generation_config
    (pipe : Option WhisperPipelineWrapper) (config : Bool)
    (native : NativeOutcome Unit) :
    OpResult WhisperConfigWrapper :=
  if pipe.isNone || !config then invalidParam
  else
    match pipe with
    | some w =>
        runBody (match native with
          | .ok _ => .completes (some ⟨w.pipeline.generation_config⟩)
          | .stdExc => .stdExc none
          | .otherExc => .otherExc none)
    | none => invalidParam

/-- ov_genai_whisper_pipeline_set_generation_config, whisper_wrapper.cpp
lines 132-145.  `native` is the externally determined outcome of the native
set_generation_config call, which validates the config and may throw; on
success the `written` component carries the pipeline's updated state. -/
def ov_genai_whisper_pipeline_set_generation_config
    (pipe : Option WhisperPipelineWrapper)
    (config : Option WhisperConfigWrapper)
    (native : NativeOutcome Unit) :
    OpResult WhisperPipelineWrapper :=
  if pipe.isNone || config.isNone then invalidParam
  else
    match pipe, config with
    | some w, some c =>
        runBody (match native with
          | .ok _ => .completes
              (some ⟨{ w.pipeline with generation_config := c.config }⟩)
          | .stdExc => .stdExc none
          | .otherExc => .otherExc none)
    | _, _ => invalidParam

/-- ov_genai_whisper_generation_config_create, whisper_wrapper.cpp lines
148-158.  `ctor` is the native default-constructed config value. -/
def ov_genai_whisper_generation_config_create
    (config : Bool) (ctor : NativeOutcome WhisperGenerationConfig) :
    OpResult WhisperConfigWrapper :=
  if !config then invalidParam
  else
    runBody (match ctor with
      | .ok c => .completes (some ⟨c⟩)
      | .stdExc => .stdExc none
      | .otherExc => .otherExc none)

/-- ov_genai_whisper_generation_config_free, whisper_wrapper.cpp 160-164. -/
def ov_genai_whisper_generation_config_free
    (config : Option WhisperConfigWrapper) : FreeAction :=
  match config with
  | none => .noop
  | some _ => .deallocated

/-- ov_genai_whisper_generation_config_set_language, cpp lines 166-177. -/
def ov_genai_whisper_generation_config_set_language
    (config : Option WhisperConfigWrapper) (language : Option CStr) :
    OpResult WhisperConfigWrapper :=
  if config.isNone || language.isNone then invalidParam
  else
    match config, language with
    | some w, some l =>
        runBody (.completes (some ⟨{ w.config with language := some l }⟩))
    | _, _ => invalidParam

/-- ov_genai_whisper_generation_config_set_task, cpp lines 179-190. -/
def ov_genai_whisper_generation_config_set_task
    (config : Option WhisperConfigWrapper) (task : Option CStr) :
    OpResult WhisperConfigWrapper :=
  if config.isNone || task.isNone then invalidParam
  else
    match config, task with
    | some w, some t =>
        runBody (.completes (some ⟨{ w.config with task := some t }⟩))
    | _, _ => invalidParam

/-- ov_genai_whisper_generation_config_set_return_timestamps, cpp 192-203. -/
def ov_genai_whisper_generation_config_set_return_timestamps
    (config : Option WhisperConfigWrapper) (return_timestamps : Bool) :
    OpResult WhisperConfigWrapper :=
  if config.isNone then invalidParam
  else
    match config with
    | some w =>
        runBody (.completes
          (some ⟨{ w.config with return_timestamps := return_timestamps }⟩))
    | none => invalidParam

/-- ov_genai_whisper_generation_config_set_initial_prompt, cpp 205-216. -/
def ov_genai_whisper_generation_config_set_initial_prompt
    (config : Option WhisperConfigWrapper) (initial_prompt : Option CStr) :
    OpResult WhisperConfigWrapper :=
  if config.isNone || initial_prompt.isNone then invalidParam
  else
    match config, initial_prompt with
    | some w, some p =>
        runBody (.completes (some ⟨{ w.config with initial_prompt := some p }⟩))
    | _, _ => invalidParam

/-- ov_genai_whisper_generation_config_set_hotwords, cpp lines 218-229. -/
def ov_genai_whisper_generation_config_set_hotwords
    (config : Option WhisperConfigWrapper) (hotwords : Option CStr) :
    OpResult WhisperConfigWrapper :=
  if config.isNone || hotwords.isNone then invalidParam
  else
    match config, hotwords with
    | some w, some h =>
        runBody (.completes (some ⟨{ w.config with hotwords := some h }⟩))
    | _, _ => invalidParam

/-- ov_genai_whisper_generation_config_set_max_initial_timestamp_index,
cpp lines 231-242. -/
def ov_genai_whisper_generation_config_set_max_initial_timestamp_index
    (config : Option WhisperConfigWrapper)
    (max_initial_timestamp_index : Nat) :
    OpResult WhisperConfigWrapper :=
  if config.isNone then invalidParam
  else
    match config with
    | some w =>
        runBody (.completes (some
          ⟨{ w.config with
              max_initial_timestamp_index := max_initial_timestamp_index }⟩))
    | none => invalidParam

/-- ov_genai_whisper_generation_config_set_decoder_start_token_id,
cpp lines 244-255. -/
def ov_genai_whisper_generation_config_set_decoder_start_token_id
    (config : Option WhisperConfigWrapper) (decoder_start_token_id : Int) :
    OpResult WhisperConfigWrapper :=
  if config.isNone then invalidParam
  else
    match config with
    | some w =>
        runBody (.completes (some
          ⟨{ w.config with decoder_start_token_id := decoder_start_token_id }⟩))
    | none => invalidParam

/-- ov_genai_whisper_generation_config_set_suppress_tokens, cpp 257-271.
`suppress_tokens` is the int64 region [ptr, ptr + suppress_tokens_size). -/
def ov_genai_whisper_generation_config_set_suppress_tokens
    (config : Option WhisperConfigWrapper)
    (suppress_tokens : Option (List Int)) :
    OpResult WhisperConfigWrapper :=
  if config.isNone || suppress_tokens.isNone then invalidParam
  else
    match config, suppress_tokens with
    | some w, some ts =>
        runBody (.completes (some ⟨{ w.config with suppress_tokens := ts }⟩))
    | _, _ => invalidParam

/-- ov_genai_whisper_generation_config_set_begin_suppress_tokens,
cpp lines 273-287. -/
def ov_genai_whisper_generation_config_set_begin_suppress_tokens
    (config : Option WhisperConfigWrapper)
    (begin_suppress_tokens : Option (List Int)) :
    OpResult WhisperConfigWrapper :=
  if config.isNone || begin_suppress_tokens.isNone then invalidParam
  else
    match config, begin_suppress_tokens with
    | some w, some ts =>
        runBody (.completes
          (some ⟨{ w.config with begin_suppress_tokens := ts }⟩))
    | _, _ => invalidParam

/-- ov_genai_whisper_decoded_results_create, whisper_wrapper.cpp 290-299.
`defaultResults` is the native default-constructed results value. -/
def ov_genai_whisper_decoded_results_create
    (results : Bool) (defaultResults : WhisperDecodedResults) :
    OpResult WhisperResultWrapper :=
  if !results then invalidParam
  else runBody (.completes (some ⟨defaultResults, [], []⟩))

/-- ov_genai_whisper_decoded_results_free, whisper_wrapper.cpp 301-305. -/
def ov_genai_whisper_decoded_results_free
    (results : Option WhisperResultWrapper) : FreeAction :=
  match results with
  | none => .noop
  | some _ => .deallocated

/-- ov_genai_whisper_decoded_results_get_texts_size, cpp lines 307-319. -/
def ov_genai_whisper_decoded_results_get_texts_size
    (results : Option WhisperResultWrapper) (texts_size : Bool) :
    OpResult Nat :=
  if results.isNone || !texts_size then invalidParam
  else
    match results with
    | some w => runBody (.completes (some w.results.texts.length))
    | none => invalidParam

/-- ov_genai_whisper_decoded_results_get_text_at, whisper_wrapper.cpp lines
321-342.  The `written` component is the byte sequence stored into the caller
buffer: min(output_size - 1, text length) bytes of the text (the subtraction
is size_t arithmetic, wrapping when output_size = 0) followed by a NUL
byte. -/
def ov_genai_whisper_decoded_results_get_text_at
    (results : Option WhisperResultWrapper) (index : Nat)
    (output : Bool) (output_size : Nat) :
    OpResult CStr :=
  if results.isNone || !output then invalidParam
  else
    match results with
    | some w =>
        runBody
          (if w.results.texts.length ≤ index then
            .earlyReturn .OV_STATUS_OUT_OF_BOUNDS none
          else
            let text := w.results.texts.getD index []
            let copy_size := min (usize_sub_one output_size) text.length
            .completes (some (text.take copy_size ++ [Char.ofNat 0])))
    | none => invalidParam

/-- ov_genai_whisper_decoded_results_get_chunks_size, cpp lines 344-356. -/
def ov_genai_whisper_decoded_results_get_chunks_size
    (results : Option WhisperResultWrapper) (chunks_size : Bool) :
    OpResult Nat :=
  if results.isNone || !chunks_size then invalidParam
  else
    match results with
    | some w => runBody (.completes (some w.results.chunks.length))
    | none => invalidParam

/-- ov_genai_whisper_decoded_results_get_chunk_at, whisper_wrapper.cpp lines
358-378: the chunk record is copied field by field into the caller struct. -/
def ov_genai_whisper_decoded_results_get_chunk_at
    (results : Option WhisperResultWrapper) (index : Nat) (chunk : Bool) :
    OpResult whisper_result_chunk :=
  if results.isNone || !chunk then invalidParam
  else
    match results with
    | some w =>
        runBody
          (if w.results.chunks.length ≤ index then
            .earlyReturn .OV_STATUS_OUT_OF_BOUNDS none
          else
            let src := w.results.chunks.getD index ⟨0, 0, []⟩
            .completes (some ⟨src.start_ts, src.end_ts, src.text⟩))
    | none => invalidParam

/-- ov_genai_whisper_decoded_results_get_scores, whisper_wrapper.cpp lines
380-398: rejects a capacity smaller than the native score count, otherwise
copies exactly the native score count of floats. -/
def ov_genai_whisper_decoded_results_get_scores
    (results : Option WhisperResultWrapper) (scores : Bool)
    (scores_size : Nat) :
    OpResult (List F32) :=
  if results.isNone || !scores then invalidParam
  else
    match results with
    | some w =>
        runBody
          (if scores_size < w.results.scores.length then
            .earlyReturn .OV_STATUS_OUT_OF_BOUNDS none
          else
            .completes (some w.results.scores))
    | none => invalidParam

/-- ov_genai_whisper_decoded_results_get_perf_metrics, cpp lines 400-414. -/
def ov_genai_whisper_decoded_results_get_perf_metrics
    (results : Option WhisperResultWrapper) (metrics : Bool) :
    OpResult WhisperPerfMetricsWrapper :=
  if results.isNone || !metrics then invalidParam
  else
    match results with
    | some w => runBody (.completes (some ⟨w.results.perf_metrics⟩))
    | none => invalidParam

/-- ov_genai_whisper_perf_metrics_get_features_extraction_duration,
whisper_wrapper.cpp lines 417-430: writes the mean and std of the feature
extraction duration through the two out pointers. -/
def ov_genai_whisper_perf_metrics_get_features_extraction_duration
    (metrics : Option WhisperPerfMetricsWrapper) (mean std : Bool) :
    OpResult (F32 × F32) :=
  if metrics.isNone || !mean || !std then invalidParam
  else
    match metrics with
    | some w =>
        runBody (.completes (some
          (w.metrics.features_extraction_duration.mean,
           w.metrics.features_extraction_duration.std)))
    | none => invalidParam

/-- ov_genai_whisper_perf_metrics_free, whisper_wrapper.cpp 432-436. -/
def ov_genai_whisper_perf_metrics_free
    (metrics : Option WhisperPerfMetricsWrapper) : FreeAction :=
  match metrics with
  | none => .noop
  | some _ => .deallocated

/-- ov::genai::GenerationConfig, as touched by the bridge setters. -/
structure GenerationConfig where
  max_new_tokens : Nat := 0
  max_length : Nat := 0
  temperature : F32 := 0
  top_p : F32 := 0
  top_k : Nat := 0
  do_sample : Bool := false
  repetition_penalty : F32 := 0
  presence_penalty : F32 := 0
  frequency_penalty : F32 := 0
  stop_strings : List CStr := []
deriving DecidableEq

/-- The native ov::genai::LLMPipeline as observable through the bridge: its
constructor arguments (model path, device, the property map forwarded to the
engine configuration), its current generation config, and whether a chat
session is active. -/
structure LLMPipeline where
  models_path : CStr
  device : CStr
  properties : List (CStr × CStr)
  generation_config : GenerationConfig
  chat_active : Bool
deriving DecidableEq

/-- struct LLMPipelineWrapper, whisper_wrapper.cpp lines 42-44. -/
structure LLMPipelineWrapper where
  pipeline : LLMPipeline
deriving DecidableEq

/-- struct GenerationConfigWrapper, whisper_wrapper.cpp lines 46-48. -/
structure GenerationConfigWrapper where
  config : GenerationConfig
deriving DecidableEq

/-- ov::genai::DecodedResults, as read by the bridge (field text and the
perf metrics). -/
structure DecodedResults where
  text : CStr := []
  perf_metrics : PerfMetrics := ⟨⟨0, 0⟩⟩
deriving DecidableEq

/-- struct DecodedResultsWrapper, whisper_wrapper.cpp lines 50-53.  The
text_cache string is declared by the source but never filled. -/
structure DecodedResultsWrapper where
  results : DecodedResults
  text_cache : CStr := []
deriving DecidableEq

/-- struct LLMPerfMetricsWrapper, whisper_wrapper.cpp lines 55-57. -/
structure LLMPerfMetricsWrapper where
  metrics : PerfMetrics
deriving DecidableEq

/-- ov_genai_llm_pipeline_create, whisper_wrapper.cpp lines 442-459: same
shape as the whisper create, ignoring property_args_size and constructing the
native pipeline from the model path and device only (lines 454-456). -/
def ov_genai_llm_pipeline_create
    (models_path device : Option CStr)
    (property_args_size : Nat)
    (call_props : List (CStr × CStr))
    (pipe : Bool)
    (ctor : NativeOutcome GenerationConfig) :
    OpResult LLMPipelineWrapper :=
  if models_path.isNone || device.isNone || !pipe then
    invalidParam
  else
    match models_path, device with
    | some mp, some dev =>
        runBody (match ctor with
          | .ok cfg => .completes (some ⟨⟨mp, dev, [], cfg, false⟩⟩)
          | .stdExc => .stdExc none
          | .otherExc => .otherExc none)
    | _, _ => invalidParam

/-- ov_genai_llm_pipeline_free, whisper_wrapper.cpp lines 461-465. -/
def ov_genai_llm_pipeline_free
    (pipe : Option LLMPipelineWrapper) : FreeAction :=
  match pipe with
  | none => .noop
  | some _ => .deallocated

/-- ov_genai_llm_pipeline_generate, whisper_wrapper.cpp lines 467-493.  The
streamer argument is accepted but never checked or used by the body. -/
def ov_genai_llm_pipeline_generate
    (pipe : Option LLMPipelineWrapper)
    (input_text : Option CStr)
    (config : Option GenerationConfigWrapper)
    (streamer : Option Unit)
    (results : Bool)
    (native : NativeOutcome DecodedResults) :
    OpResult DecodedResultsWrapper :=
  if pipe.isNone || input_text.isNone || !results then
    invalidParam
  else
    runBody (match native with
      | .ok r => .completes (some ⟨r, []⟩)
      | .stdExc => .stdExc none
      | .otherExc => .otherExc none)

/-- ov_genai_llm_pipeline_start_chat, whisper_wrapper.cpp lines 495-504.
The `written` component carries the pipeline's updated state. -/
def ov_genai_llm_pipeline_start_chat
    (pipe : Option LLMPipelineWrapper) (native : NativeOutcome Unit) :
    OpResult LLMPipelineWrapper :=
  if pipe.isNone then invalidParam
  else
    match pipe with
    | some w =>
        runBody (match native with
          | .ok _ => .completes (some ⟨{ w.pipeline with chat_active := true }⟩)
          | .stdExc => .stdExc none
          | .otherExc => .otherExc none)
    | none => invalidParam

/-- ov_genai_llm_pipeline_finish_chat, whisper_wrapper.cpp lines 506-515. -/
def ov_genai_llm_pipeline_finish_chat
    (pipe : Option LLMPipelineWrapper) (native : NativeOutcome Unit) :
    OpResult LLMPipelineWrapper :=
  if pipe.isNone then invalidParam
  else
    match pipe with
    | some w =>
        runBody (match native with
          | .ok _ => .completes (some ⟨{ w.pipeline with chat_active := false }⟩)
          | .stdExc => .stdExc none
          | .otherExc => .otherExc none)
    | none => invalidParam

/-- ov_genai_llm_pipeline_get_generation_config, cpp lines 517-532.
`native` is the externally determined outcome of the native
get_generation_config call; on success the copy made is the pipeline's
current config. -/
def ov_genai_llm_pipeline_get_generation_config
    (pipe : Option LLMPipelineWrapper) (config : Bool)
    (native : NativeOutcome Unit) :
    OpResult GenerationConfigWrapper :=
  if pipe.isNone || !config then invalidParam
  else
    match pipe with
    | some w =>
        runBody (match native with
          | .ok _ => .completes (some ⟨w.pipeline.generation_config⟩)
          | .stdExc => .stdExc none
          | .otherExc => .otherExc none)
    | none => invalidParam

/-- ov_genai_llm_pipeline_set_generation_config, cpp lines 534-547.
`native` is the externally determined outcome of the native
set_generation_config call, which validates the config and may throw. -/
def ov_genai_llm_pipeline_set_generation_config
    (pipe : Option LLMPipelineWrapper)
    (config : Option GenerationConfigWrapper)
    (native : NativeOutcome Unit) :
    OpResult LLMPipelineWrapper :=
  if pipe.isNone || config.isNone then invalidParam
  else
    match pipe, config with
    | some w, some c =>
        runBody (match native with
          | .ok _ => .completes
              (some ⟨{ w.pipeline with generation_config := c.config }⟩)
          | .stdExc => .stdExc none
          | .otherExc => .otherExc none)
    | _, _ => invalidParam

/-- ov_genai_generation_config_create, whisper_wrapper.cpp lines 553-563. -/
def ov_genai_generation_config_create
    (config : Bool) (ctor : NativeOutcome GenerationConfig) :
    OpResult GenerationConfigWrapper :=
  if !config then invalidParam
  else
    runBody (match ctor with
      | .ok c => .completes (some ⟨c⟩)
      | .stdExc => .stdExc none
      | .otherExc => .otherExc none)

/-- ov_genai_generation_config_create_from_json, whisper_wrapper.cpp lines
565-581: the body default-constructs a config and ignores the JSON text (the
parsing is an explicit TODO in the source). -/
def ov_genai_generation_config_create_from_json
    (json_config : Option CStr) (config : Bool)
    (ctor : NativeOutcome GenerationConfig) :
    OpResult GenerationConfigWrapper :=
  if json_config.isNone || !config then invalidParam
  else
    runBody (match ctor with
      | .ok c => .completes (some ⟨c⟩)
      | .stdExc => .stdExc none
      | .otherExc => .otherExc none)

/-- ov_genai_generation_config_free, whisper_wrapper.cpp lines 583-587. -/
def ov_genai_generation_config_free
    (config : Option GenerationConfigWrapper) : FreeAction :=
  match config with
  | none => .noop
  | some _ => .deallocated

/-- ov_genai_generation_config_set_max_new_tokens, cpp lines 589-600. -/
def ov_genai_generation_config_set_max_new_tokens
    (config : Option GenerationConfigWrapper) (max_new_tokens : Nat) :
    OpResult GenerationConfigWrapper :=
  if config.isNone then invalidParam
  else
    match config with
    | some w =>
        runBody (.completes
          (some ⟨{ w.config with max_new_tokens := max_new_tokens }⟩))
    | none => invalidParam

/-- ov_genai_generation_config_set_max_length, cpp lines 602-613. -/
def ov_genai_generation_config_set_max_length
    (config : Option GenerationConfigWrapper) (max_length : Nat) :
    OpResult GenerationConfigWrapper :=
  if config.isNone then invalidParam
  else
    match config with
    | some w =>
        runBody (.completes (some ⟨{ w.config with max_length := max_length }⟩))
    | none => invalidParam

/-- ov_genai_generation_config_set_temperature, cpp lines 615-626. -/
def ov_genai_generation_config_set_temperature
    (config : Option GenerationConfigWrapper) (temperature : F32) :
    OpResult GenerationConfigWrapper :=
  if config.isNone then invalidParam
  else
    match config with
    | some w =>
        runBody (.completes
          (some ⟨{ w.config with temperature := temperature }⟩))
    | none => invalidParam

/-- ov_genai_generation_config_set_top_p, cpp lines 628-639. -/
def ov_genai_generation_config_set_top_p
    (config : Option GenerationConfigWrapper) (top_p : F32) :
    OpResult GenerationConfigWrapper :=
  if config.isNone then invalidParam
  else
    match config with
    | some w =>
        runBody (.completes (some ⟨{ w.config with top_p := top_p }⟩))
    | none => invalidParam

/-- ov_genai_generation_config_set_top_k, cpp lines 641-652. -/
def ov_genai_generation_config_set_top_k
    (config : Option GenerationConfigWrapper) (top_k : Nat) :
    OpResult GenerationConfigWrapper :=
  if config.isNone then invalidParam
  else
    match config with
    | some w =>
        runBody (.completes (some ⟨{ w.config with top_k := top_k }⟩))
    | none => invalidParam

/-- ov_genai_generation_config_set_do_sample, cpp lines 654-665. -/
def ov_genai_generation_config_set_do_sample
    (config : Option GenerationConfigWrapper) (do_sample : Bool) :
    OpResult GenerationConfigWrapper :=
  if config.isNone then invalidParam
  else
    match config with
    | some w =>
        runBody (.completes (some ⟨{ w.config with do_sample := do_sample }⟩))
    | none => invalidParam

/-- ov_genai_generation_config_set_repetition_penalty, cpp lines 667-678. -/
def ov_genai_generation_config_set_repetition_penalty
    (config : Option GenerationConfigWrapper) (repetition_penalty : F32) :
    OpResult GenerationConfigWrapper :=
  if config.isNone then invalidParam
  else
    match config with
    | some w =>
        runBody (.completes
          (some ⟨{ w.config with repetition_penalty := repetition_penalty }⟩))
    | none => invalidParam

/-- ov_genai_generation_config_set_presence_penalty, cpp lines 680-691. -/
def ov_genai_generation_config_set_presence_penalty
    (config : Option GenerationConfigWrapper) (presence_penalty : F32) :
    OpResult GenerationConfigWrapper :=
  if config.isNone then invalidParam
  else
    match config with
    | some w =>
        runBody (.completes
          (some ⟨{ w.config with presence_penalty := presence_penalty }⟩))
    | none => invalidParam

/-- ov_genai_generation_config_set_frequency_penalty, cpp lines 693-704. -/
def ov_genai_generation_config_set_frequency_penalty
    (config : Option GenerationConfigWrapper) (frequency_penalty : F32) :
    OpResult GenerationConfigWrapper :=
  if config.isNone then invalidParam
  else
    match config with
    | some w =>
        runBody (.completes
          (some ⟨{ w.config with frequency_penalty := frequency_penalty }⟩))
    | none => invalidParam

/-- ov_genai_generation_config_set_stop_strings, whisper_wrapper.cpp lines
706-723.  `stop_strings` is the char-pointer region of length
stop_strings_size, each entry copied into the native vector. -/
def ov_genai_generation_config_set_stop_strings
    (config : Option GenerationConfigWrapper)
    (stop_strings : Option (List CStr)) :
    OpResult GenerationConfigWrapper :=
  if config.isNone || stop_strings.isNone then invalidParam
  else
    match config, stop_strings with
    | some w, some ss =>
        runBody (.completes (some ⟨{ w.config with stop_strings := ss }⟩))
    | _, _ => invalidParam

/-- ov_genai_generation_config_get_max_new_tokens, cpp lines 725-736. -/
def ov_genai_generation_config_get_max_new_tokens
    (config : Option GenerationConfigWrapper) (max_new_tokens : Bool) :
    OpResult Nat :=
  if config.isNone || !max_new_tokens then invalidParam
  else
    match config with
    | some w => runBody (.completes (some w.config.max_new_tokens))
    | none => invalidParam

/-- ov_genai_generation_config_validate, whisper_wrapper.cpp lines 738-749:
the guarded body does nothing (the native validate call is commented out). -/
def ov_genai_generation_config_validate
    (config : Option GenerationConfigWrapper) : OpResult Unit :=
  if config.isNone then invalidParam
  else runBody (.completes none)

/-- ov_genai_decoded_results_create, whisper_wrapper.cpp lines 755-764. -/
def ov_genai_decoded_results_create
    (results : Bool) (defaultResults : DecodedResults) :
    OpResult DecodedResultsWrapper :=
  if !results then invalidParam
  else runBody (.completes (some ⟨defaultResults, []⟩))

/-- ov_genai_decoded_results_free, whisper_wrapper.cpp lines 766-770. -/
def ov_genai_decoded_results_free
    (results : Option DecodedResultsWrapper) : FreeAction :=
  match results with
  | none => .noop
  | some _ => .deallocated

/-- ov_genai_decoded_results_get_string, whisper_wrapper.cpp lines 772-789.
Same truncate-and-terminate copy as get_text_at, on the single result
string; there is no bounds check and no size-query phase. -/
def ov_genai_decoded_results_get_string
    (results : Option DecodedResultsWrapper) (output : Bool)
    (output_size : Nat) :
    OpResult CStr :=
  if results.isNone || !output then invalidParam
  else
    match results with
    | some w =>
        runBody
          (let text := w.results.text
           let copy_size := min (usize_sub_one output_size) text.length
           .completes (some (text.take copy_size ++ [Char.ofNat 0])))
    | none => invalidParam

/-- ov_genai_decoded_results_get_perf_metrics, cpp lines 791-805. -/
def ov_genai_decoded_results_get_perf_metrics
    (results : Option DecodedResultsWrapper) (metrics : Bool) :
    OpResult LLMPerfMetricsWrapper :=
  if results.isNone || !metrics then invalidParam
  else
    match results with
    | some w => runBody (.completes (some ⟨w.results.perf_metrics⟩))
    | none => invalidParam

/-- ov_genai_decoded_results_perf_metrics_free, cpp lines 807-811. -/
def ov_genai_decoded_results_perf_metrics_free
    (metrics : Option LLMPerfMetricsWrapper) : FreeAction :=
  match metrics with
  | none => .noop
  | some _ => .deallocated

/-- Sample metrics value for the concrete witnesses below. -/
def samplePerf : PerfMetrics := ⟨⟨3, 4⟩⟩

/-- A sample whisper results value: one text segment "AB", one score, one
timestamped chunk. -/
def sampleResults : WhisperDecodedResults :=
  ⟨["AB".toList], [5], [⟨0, 1, "AB".toList⟩], samplePerf⟩

/-- A sample whisper results handle. -/
def sampleW : WhisperResultWrapper := ⟨sampleResults, [], []⟩

/-- A sample LLM decoded-results handle with text "AB". -/
def sampleLLM : DecodedResultsWrapper := ⟨⟨"AB".toList, samplePerf⟩, []⟩

/-- size_t subtraction of one agrees with Nat subtraction on every in-range
nonzero operand. -/
theorem usize_sub_one_of_pos {n : Nat} (h1 : 1 ≤ n) (h2 : n < USIZE_MOD) :
    usize_sub_one n = n - 1 := by
  have hM : USIZE_MOD = 18446744073709551616 := by norm_num [USIZE_MOD]
  unfold usize_sub_one
  rw [hM] at h2 ⊢
  omega

/-- The three statuses the try/catch translator itself can produce. -/
abbrev translatorStatus (s : ov_status_e) : Prop :=
  s = .OV_STATUS_OK ∨ s = .OV_STATUS_GENERAL_ERROR ∨
    s = .OV_STATUS_UNKNOW_EXCEPTION

/-- A translator status or the out-of-bounds code that the indexed and bulk
accessors return from their explicit in-body checks. -/
abbrev translatorOrBoundStatus (s : ov_status_e) : Prop :=
  translatorStatus s ∨ s = .OV_STATUS_OUT_OF_BOUNDS

/-- Claim C10: every free operation of both pipeline families, called with a
null handle, performs no action; each free is a total void function (it
returns normally and reports no status). -/
theorem C10_free_null_is_noop :
    ov_genai_whisper_pipeline_free none = .noop ∧
    ov_genai_whisper_generation_config_free none = .noop ∧
    ov_genai_whisper_decoded_results_free none = .noop ∧
    ov_genai_whisper_perf_metrics_free none = .noop ∧
    ov_genai_llm_pipeline_free none = .noop ∧
    ov_genai_generation_config_free none = .noop ∧
    ov_genai_decoded_results_free none = .noop ∧
    ov_genai_decoded_results_perf_metrics_free none = .noop :=
  ⟨rfl, rfl, rfl, rfl, rfl, rfl, rfl, rfl⟩

/-- Claim C8: for every valid results handle and non-null scores buffer,
get_scores returns out-of-bounds when the supplied capacity is strictly
smaller than the native score count (writing nothing), and otherwise returns
OK and copies exactly the native scores into the buffer. -/
theorem C8_get_scores_capacity (w : WhisperResultWrapper) (scores_size : Nat) :
    (scores_size < w.results.scores.length →
      ov_genai_whisper_decoded_results_get_scores (some w) true scores_size =
        ⟨.OV_STATUS_OUT_OF_BOUNDS, none, true⟩) ∧
    (w.results.scores.length ≤ scores_size →
      ov_genai_whisper_decoded_results_get_scores (some w) true scores_size =
        ⟨.OV_STATUS_OK, some w.results.scores, true⟩) := by
  constructor
  · intro h
    simp [ov_genai_whisper_decoded_results_get_scores, runBody,
      WHISPER_WRAPPER_TRY_CATCH, h]
  · intro h
    simp [ov_genai_whisper_decoded_results_get_scores, runBody,
      WHISPER_WRAPPER_TRY_CATCH, Nat.not_lt.mpr h]

/-- Witness for C8 on the sample handle (one native score): capacity 0 is
rejected as out-of-bounds, capacity 1 copies the one score. -/
theorem C8_witness :
    ov_genai_whisper_decoded_results_get_scores (some sampleW) true 0 =
        ⟨.OV_STATUS_OUT_OF_BOUNDS, none, true⟩ ∧
    ov_genai_whisper_decoded_results_get_scores (some sampleW) true 1 =
        ⟨.OV_STATUS_OK, some sampleW.results.scores, true⟩ :=
  ⟨(C8_get_scores_capacity sampleW 0).1 (by decide),
   (C8_get_scores_capacity sampleW 1).2 (by decide)⟩

/-- Claim C6: on a valid results handle the indexed accessors return
out-of-bounds exactly for indices at or beyond the count the corresponding
size accessor reports, and succeed for every smaller index. -/
theorem C6_index_accessors (w : WhisperResultWrapper)
    (index output_size : Nat) :
    ((ov_genai_whisper_decoded_results_get_texts_size (some w) true).written =
      some w.results.texts.length) ∧
    (w.results.texts.length ≤ index →
      ov_genai_whisper_decoded_results_get_text_at (some w) index true
          output_size =
        ⟨.OV_STATUS_OUT_OF_BOUNDS, none, true⟩) ∧
    (index < w.results.texts.length →
      (ov_genai_whisper_decoded_results_get_text_at (some w) index true
          output_size).status = .OV_STATUS_OK) ∧
    ((ov_genai_whisper_decoded_results_get_chunks_size (some w) true).written =
      some w.results.chunks.length) ∧
    (w.results.chunks.length ≤ index →
      ov_genai_whisper_decoded_results_get_chunk_at (some w) index true =
        ⟨.OV_STATUS_OUT_OF_BOUNDS, none, true⟩) ∧
    (index < w.results.chunks.length →
      (ov_genai_whisper_decoded_results_get_chunk_at (some w) index
          true).status = .OV_STATUS_OK) := by
  refine ⟨?_, ?_, ?_, ?_, ?_, ?_⟩
  · simp [ov_genai_whisper_decoded_results_get_texts_size, runBody,
      WHISPER_WRAPPER_TRY_CATCH]
  · intro h
    simp [ov_genai_whisper_decoded_results_get_text_at, runBody,
      WHISPER_WRAPPER_TRY_CATCH, h]
  · intro h
    simp [ov_genai_whisper_decoded_results_get_text_at, runBody,
      WHISPER_WRAPPER_TRY_CATCH, Nat.not_le.mpr h]
  · simp [ov_genai_whisper_decoded_results_get_chunks_size, runBody,
      WHISPER_WRAPPER_TRY_CATCH]
  · intro h
    simp [ov_genai_whisper_decoded_results_get_chunk_at, runBody,
      WHISPER_WRAPPER_TRY_CATCH, h]
  · intro h
    simp [ov_genai_whisper_decoded_results_get_chunk_at, runBody,
      WHISPER_WRAPPER_TRY_CATCH, Nat.not_le.mpr h]

/-- Witness for C6 on the sample handle (one text, one chunk): index 1 is
out-of-bounds, index 0 succeeds, for both accessors. -/
theorem C6_witness :
    ov_genai_whisper_decoded_results_get_text_at (some sampleW) 1 true 4 =
        ⟨.OV_STATUS_OUT_OF_BOUNDS, none, true⟩ ∧
    (ov_genai_whisper_decoded_results_get_text_at (some sampleW) 0 true
        4).status = .OV_STATUS_OK ∧
    ov_genai_whisper_decoded_results_get_chunk_at (some sampleW) 1 true =
        ⟨.OV_STATUS_OUT_OF_BOUNDS, none, true⟩ ∧
    (ov_genai_whisper_decoded_results_get_chunk_at (some sampleW) 0
        true).status = .OV_STATUS_OK :=
  ⟨(C6_index_accessors sampleW 1 4).2.1 (by decide),
   (C6_index_accessors sampleW 0 4).2.2.1 (by decide),
   (C6_index_accessors sampleW 1 4).2.2.2.2.1 (by decide),
   (C6_index_accessors sampleW 0 4).2.2.2.2.2 (by decide)⟩

/-- Claim C4, evaluated at the failing input of test_whisper_npu_cache.c line
50: pipeline creation with property_args_size = 2 and the trailing pair
("CACHE_DIR", "npu_cache") succeeds but constructs the native pipeline with
an empty property map — the pair is not forwarded.  The general conjuncts
show that for both families no creation call ever forwards any property:
the C signature binds no trailing arguments and the body passes only the
model path and device to the native constructor. -/
theorem C4_properties_not_forwarded :
    ((ov_genai_whisper_pipeline_create (some "whisper-model".toList)
        (some "NPU".toList) 2 [("CACHE_DIR".toList, "npu_cache".toList)] true
        (.ok {})).written =
      some ⟨⟨"whisper-model".toList, "NPU".toList, [], {}⟩⟩) ∧
    (([] : List (CStr × CStr)) ≠ [("CACHE_DIR".toList, "npu_cache".toList)]) ∧
    (∀ (mp dev : CStr) (n : Nat) (props : List (CStr × CStr))
        (cfg : WhisperGenerationConfig),
      (ov_genai_whisper_pipeline_create (some mp) (some dev) n props true
          (.ok cfg)).written = some ⟨⟨mp, dev, [], cfg⟩⟩) ∧
    (∀ (mp dev : CStr) (n : Nat) (props : List (CStr × CStr))
        (cfg : GenerationConfig),
      (ov_genai_llm_pipeline_create (some mp) (some dev) n props true
          (.ok cfg)).written = some ⟨⟨mp, dev, [], cfg, false⟩⟩) :=
  ⟨by decide, by decide,
   fun mp dev n props cfg => rfl,
   fun mp dev n props cfg => rfl⟩

/-- Claim C3 counterexample: on a valid handle holding the text "AB", calling
the string accessor with a null output pointer does not succeed and reports
no size — it is rejected with the invalid-argument code before the body runs;
likewise for the LLM get_string.  (These accessors receive the buffer size by
value and have no channel to report a needed size at all.) -/
theorem C3_counterexample :
    ov_genai_whisper_decoded_results_get_text_at (some sampleW) 0 false 0 =
      ⟨.OV_STATUS_INVALID_C_PARAM, none, false⟩ ∧
    (ov_genai_whisper_decoded_results_get_text_at (some sampleW) 0 false
        0).status ≠ .OV_STATUS_OK ∧
    ov_genai_decoded_results_get_string (some sampleLLM) false 0 =
      ⟨.OV_STATUS_INVALID_C_PARAM, none, false⟩ ∧
    (ov_genai_decoded_results_get_string (some sampleLLM) false 0).status ≠
      .OV_STATUS_OK := by
  decide

/-- Claim C3 (amended): the string accessors have no null-output size-query
phase — a null output pointer is rejected with the invalid-argument code, as
the counterexample shows — and a fill call with a caller buffer of exactly
content length + 1 bytes (the size actually needed) reproduces the full
untruncated content followed by the terminator. -/
theorem C3_exact_size_fill (w : WhisperResultWrapper)
    (lw : DecodedResultsWrapper) (index : Nat) :
    (index < w.results.texts.length →
      (w.results.texts.getD index []).length + 1 < USIZE_MOD →
      ov_genai_whisper_decoded_results_get_text_at (some w) index true
          ((w.results.texts.getD index []).length + 1) =
        ⟨.OV_STATUS_OK,
         some ((w.results.texts.getD index []) ++ [Char.ofNat 0]), true⟩) ∧
    (lw.results.text.length + 1 < USIZE_MOD →
      ov_genai_decoded_results_get_string (some lw) true
          (lw.results.text.length + 1) =
        ⟨.OV_STATUS_OK, some (lw.results.text ++ [Char.ofNat 0]), true⟩) := by
  constructor
  · intro hi hm
    have hs : usize_sub_one ((w.results.texts.getD index []).length + 1) =
        (w.results.texts.getD index []).length :=
      usize_sub_one_of_pos (Nat.le_add_left 1 _) hm
    simp only [List.getD_eq_getElem?_getD] at hs
    simp [ov_genai_whisper_decoded_results_get_text_at, runBody,
      WHISPER_WRAPPER_TRY_CATCH, Nat.not_le.mpr hi, hs]
  · intro hm
    have hs : usize_sub_one (lw.results.text.length + 1) =
        lw.results.text.length :=
      usize_sub_one_of_pos (Nat.le_add_left 1 _) hm
    simp [ov_genai_decoded_results_get_string, runBody,
      WHISPER_WRAPPER_TRY_CATCH, hs]

/-- Witness for C3 (amended) on the sample handles: text "AB" needs 3 bytes,
and a 3-byte fill reproduces "AB" plus the terminator, for both accessors. -/
theorem C3_witness :
    ov_genai_whisper_decoded_results_get_text_at (some sampleW) 0 true 3 =
      ⟨.OV_STATUS_OK,
       some ((sampleW.results.texts.getD 0 []) ++ [Char.ofNat 0]), true⟩ ∧
    ov_genai_decoded_results_get_string (some sampleLLM) true 3 =
      ⟨.OV_STATUS_OK, some (sampleLLM.results.text ++ [Char.ofNat 0]), true⟩ :=
  ⟨(C3_exact_size_fill sampleW sampleLLM 0).1 (by decide) (by decide),
   (C3_exact_size_fill sampleW sampleLLM 0).2 (by decide)⟩

/-- Claim C7: a string fill call with a valid handle, non-null buffer of
declared size at least 1, and (for get_text_at) an in-range index, copies
min(buffer size - 1, content length) content bytes plus a terminating NUL and
returns OK even when the buffer is smaller than the content; a buffer one
byte smaller than the needed content length + 1 yields the content truncated
by exactly one character plus the terminator. -/
theorem C7_truncate_and_terminate (w : WhisperResultWrapper)
    (lw : DecodedResultsWrapper) (index output_size : Nat) :
    (index < w.results.texts.length → 1 ≤ output_size →
      output_size < USIZE_MOD →
      ov_genai_whisper_decoded_results_get_text_at (some w) index true
          output_size =
        ⟨.OV_STATUS_OK,
         some ((w.results.texts.getD index []).take
                 (min (output_size - 1)
                   (w.results.texts.getD index []).length) ++
               [Char.ofNat 0]), true⟩) ∧
    (1 ≤ output_size → output_size < USIZE_MOD →
      ov_genai_decoded_results_get_string (some lw) true output_size =
        ⟨.OV_STATUS_OK,
         some (lw.results.text.take
                 (min (output_size - 1) lw.results.text.length) ++
               [Char.ofNat 0]), true⟩) ∧
    (index < w.results.texts.length →
      1 ≤ (w.results.texts.getD index []).length →
      (w.results.texts.getD index []).length < USIZE_MOD →
      ov_genai_whisper_decoded_results_get_text_at (some w) index true
          (w.results.texts.getD index []).length =
        ⟨.OV_STATUS_OK,
         some ((w.results.texts.getD index []).take
                 ((w.results.texts.getD index []).length - 1) ++
               [Char.ofNat 0]), true⟩) := by
  have key : ∀ osz : Nat, index < w.results.texts.length → 1 ≤ osz →
      osz < USIZE_MOD →
      ov_genai_whisper_decoded_results_get_text_at (some w) index true osz =
        ⟨.OV_STATUS_OK,
         some ((w.results.texts.getD index []).take
                 (min (osz - 1) (w.results.texts.getD index []).length) ++
               [Char.ofNat 0]), true⟩ := by
    intro osz hi h1 h2
    simp [ov_genai_whisper_decoded_results_get_text_at, runBody,
      WHISPER_WRAPPER_TRY_CATCH, Nat.not_le.mpr hi,
      usize_sub_one_of_pos h1 h2]
  refine ⟨key output_size, ?_, ?_⟩
  · intro h1 h2
    simp [ov_genai_decoded_results_get_string, runBody,
      WHISPER_WRAPPER_TRY_CATCH, usize_sub_one_of_pos h1 h2]
  · intro hi h1 h2
    have := key (w.results.texts.getD index []).length hi h1 h2
    rwa [Nat.min_eq_left (Nat.sub_le _ _)] at this

/-- Witness for C7 on the sample handle: content "AB" with a 2-byte buffer
(one byte smaller than needed) gives "A" plus the terminator and status OK;
the same shape holds for the LLM get_string. -/
theorem C7_witness :
    ov_genai_whisper_decoded_results_get_text_at (some sampleW) 0 true 2 =
      ⟨.OV_STATUS_OK,
       some ((sampleW.results.texts.getD 0 []).take
               (min 1 (sampleW.results.texts.getD 0 []).length) ++
             [Char.ofNat 0]), true⟩ ∧
    ov_genai_decoded_results_get_string (some sampleLLM) true 2 =
      ⟨.OV_STATUS_OK,
       some (sampleLLM.results.text.take
               (min 1 sampleLLM.results.text.length) ++ [Char.ofNat 0]),
       true⟩ :=
  ⟨(C7_truncate_and_terminate sampleW sampleLLM 0 2).1
      (by decide) (by decide) (by decide),
   (C7_truncate_and_terminate sampleW sampleLLM 0 2).2.1
      (by decide) (by decide)⟩

/-- Claim C9: a string fill call with a valid handle, non-null buffer, and
declared size output_size at least 1 (and in size_t range) writes at most
output_size bytes, and the last written byte is the NUL terminator.  The
output_size = 0 case is outside the guarantee: there the unsigned
output_size - 1 wraps to 2^64 - 1. -/
theorem C9_fill_buffer_bound (w : WhisperResultWrapper)
    (lw : DecodedResultsWrapper) (index output_size : Nat) :
    (1 ≤ output_size → output_size < USIZE_MOD →
      index < w.results.texts.length →
      ∃ buf, (ov_genai_whisper_decoded_results_get_text_at (some w) index true
          output_size).written = some buf ∧
        buf.length ≤ output_size ∧ buf.getLast? = some (Char.ofNat 0)) ∧
    (1 ≤ output_size → output_size < USIZE_MOD →
      ∃ buf, (ov_genai_decoded_results_get_string (some lw) true
          output_size).written = some buf ∧
        buf.length ≤ output_size ∧ buf.getLast? = some (Char.ofNat 0)) := by
  constructor
  · intro h1 h2 hi
    refine ⟨(w.results.texts.getD index []).take
        (min (usize_sub_one output_size)
          (w.results.texts.getD index []).length) ++ [Char.ofNat 0],
      ?_, ?_, ?_⟩
    · simp [ov_genai_whisper_decoded_results_get_text_at, runBody,
        WHISPER_WRAPPER_TRY_CATCH, Nat.not_le.mpr hi]
    · have := usize_sub_one_of_pos h1 h2
      simp only [List.length_append, List.length_take, List.length_singleton]
      omega
    · simp
  · intro h1 h2
    refine ⟨lw.results.text.take
        (min (usize_sub_one output_size) lw.results.text.length) ++
          [Char.ofNat 0],
      ?_, ?_, ?_⟩
    · simp [ov_genai_decoded_results_get_string, runBody,
        WHISPER_WRAPPER_TRY_CATCH]
    · have := usize_sub_one_of_pos h1 h2
      simp only [List.length_append, List.length_take, List.length_singleton]
      omega
    · simp

/-- Witness for C9 on the sample handles with a 2-byte buffer. -/
theorem C9_witness :
    (∃ buf, (ov_genai_whisper_decoded_results_get_text_at (some sampleW) 0
        true 2).written = some buf ∧
      buf.length ≤ 2 ∧ buf.getLast? = some (Char.ofNat 0)) ∧
    (∃ buf, (ov_genai_decoded_results_get_string (some sampleLLM) true
        2).written = some buf ∧
      buf.length ≤ 2 ∧ buf.getLast? = some (Char.ofNat 0)) :=
  ⟨(C9_fill_buffer_bound sampleW sampleLLM 0 2).1
      (by decide) (by decide) (by decide),
   (C9_fill_buffer_bound sampleW sampleLLM 0 2).2 (by decide) (by decide)⟩

/-- Claim C5: every handle-producing operation of either family, on every
call that returns a nonzero status (invalid-argument, general-failure, or
unknown-exception), leaves its out-parameter unwritten — the location keeps
whatever value it had before the call. -/
theorem C5_out_param_untouched :
    (∀ mp dev n props p ctor,
      (ov_genai_whisper_pipeline_create mp dev n props p ctor).status ≠
        .OV_STATUS_OK →
      (ov_genai_whisper_pipeline_create mp dev n props p ctor).written =
        none) ∧
    (∀ pipe inp cfg r native,
      (ov_genai_whisper_pipeline_generate pipe inp cfg r native).status ≠
        .OV_STATUS_OK →
      (ov_genai_whisper_pipeline_generate pipe inp cfg r native).written =
        none) ∧
    (∀ pipe c native,
      (ov_genai_whisper_pipeline_get_generation_config pipe c
        native).status ≠ .OV_STATUS_OK →
      (ov_genai_whisper_pipeline_get_generation_config pipe c
        native).written = none) ∧
    (∀ c ctor,
      (ov_genai_whisper_generation_config_create c ctor).status ≠
        .OV_STATUS_OK →
      (ov_genai_whisper_generation_config_create c ctor).written = none) ∧
    (∀ r d,
      (ov_genai_whisper_decoded_results_create r d).status ≠ .OV_STATUS_OK →
      (ov_genai_whisper_decoded_results_create r d).written = none) ∧
    (∀ res m,
      (ov_genai_whisper_decoded_results_get_perf_metrics res m).status ≠
        .OV_STATUS_OK →
      (ov_genai_whisper_decoded_results_get_perf_metrics res m).written =
        none) ∧
    (∀ mp dev n props p ctor,
      (ov_genai_llm_pipeline_create mp dev n props p ctor).status ≠
        .OV_STATUS_OK →
      (ov_genai_llm_pipeline_create mp dev n props p ctor).written = none) ∧
    (∀ pipe txt cfg st r native,
      (ov_genai_llm_pipeline_generate pipe txt cfg st r native).status ≠
        .OV_STATUS_OK →
      (ov_genai_llm_pipeline_generate pipe txt cfg st r native).written =
        none) ∧
    (∀ pipe c native,
      (ov_genai_llm_pipeline_get_generation_config pipe c native).status ≠
        .OV_STATUS_OK →
      (ov_genai_llm_pipeline_get_generation_config pipe c native).written =
        none) ∧
    (∀ c ctor,
      (ov_genai_generation_config_create c ctor).status ≠ .OV_STATUS_OK →
      (ov_genai_generation_config_create c ctor).written = none) ∧
    (∀ js c ctor,
      (ov_genai_generation_config_create_from_json js c ctor).status ≠
        .OV_STATUS_OK →
      (ov_genai_generation_config_create_from_json js c ctor).written =
        none) ∧
    (∀ r d,
      (ov_genai_decoded_results_create r d).status ≠ .OV_STATUS_OK →
      (ov_genai_decoded_results_create r d).written = none) ∧
    (∀ res m,
      (ov_genai_decoded_results_get_perf_metrics res m).status ≠
        .OV_STATUS_OK →
      (ov_genai_decoded_results_get_perf_metrics res m).written = none) := by
  refine ⟨?_, ?_, ?_, ?_, ?_, ?_, ?_, ?_, ?_, ?_, ?_, ?_, ?_⟩
  · intro mp dev n props p ctor h
    cases mp <;> cases dev <;> cases p <;> cases ctor <;>
      simp_all [ov_genai_whisper_pipeline_create, runBody,
        WHISPER_WRAPPER_TRY_CATCH, invalidParam]
  · intro pipe inp cfg r native h
    cases pipe <;> cases inp <;> cases r <;> cases native <;>
      simp_all [ov_genai_whisper_pipeline_generate, runBody,
        WHISPER_WRAPPER_TRY_CATCH, invalidParam]
  · intro pipe c native h
    cases pipe <;> cases c <;> cases native <;>
      simp_all [ov_genai_whisper_pipeline_get_generation_config, runBody,
        WHISPER_WRAPPER_TRY_CATCH, invalidParam]
  · intro c ctor h
    cases c <;> cases ctor <;>
      simp_all [ov_genai_whisper_generation_config_create, runBody,
        WHISPER_WRAPPER_TRY_CATCH, invalidParam]
  · intro r d h
    cases r <;>
      simp_all [ov_genai_whisper_decoded_results_create, runBody,
        WHISPER_WRAPPER_TRY_CATCH, invalidParam]
  · intro res m h
    cases res <;> cases m <;>
      simp_all [ov_genai_whisper_decoded_results_get_perf_metrics, runBody,
        WHISPER_WRAPPER_TRY_CATCH, invalidParam]
  · intro mp dev n props p ctor h
    cases mp <;> cases dev <;> cases p <;> cases ctor <;>
      simp_all [ov_genai_llm_pipeline_create, runBody,
        WHISPER_WRAPPER_TRY_CATCH, invalidParam]
  · intro pipe txt cfg st r native h
    cases pipe <;> cases txt <;> cases r <;> cases native <;>
      simp_all [ov_genai_llm_pipeline_generate, runBody,
        WHISPER_WRAPPER_TRY_CATCH, invalidParam]
  · intro pipe c native h
    cases pipe <;> cases c <;> cases native <;>
      simp_all [ov_genai_llm_pipeline_get_generation_config, runBody,
        WHISPER_WRAPPER_TRY_CATCH, invalidParam]
  · intro c ctor h
    cases c <;> cases ctor <;>
      simp_all [ov_genai_generation_config_create, runBody,
        WHISPER_WRAPPER_TRY_CATCH, invalidParam]
  · intro js c ctor h
    cases js <;> cases c <;> cases ctor <;>
      simp_all [ov_genai_generation_config_create_from_json, runBody,
        WHISPER_WRAPPER_TRY_CATCH, invalidParam]
  · intro r d h
    cases r <;>
      simp_all [ov_genai_decoded_results_create, runBody,
        WHISPER_WRAPPER_TRY_CATCH, invalidParam]
  · intro res m h
    cases res <;> cases m <;>
      simp_all [ov_genai_decoded_results_get_perf_metrics, runBody,
        WHISPER_WRAPPER_TRY_CATCH, invalidParam]

/-- Witness for C5: creation with a null model path (status
invalid-argument), generation whose native call throws a std error (status
general-failure), and get-current-config whose native call raises an
unrecognized fault (status unknown-exception) all leave the out-parameter
unwritten. -/
theorem C5_witness :
    (ov_genai_whisper_pipeline_create none (some "CPU".toList) 0 [] true
        (.ok {})).written = none ∧
    (ov_genai_whisper_pipeline_generate (some ⟨⟨"m".toList, "CPU".toList, [],
        {}⟩⟩) (some []) none true .stdExc).written = none ∧
    (ov_genai_whisper_pipeline_get_generation_config
        (some ⟨⟨"m".toList, "CPU".toList, [], {}⟩⟩) true
        .otherExc).written = none :=
  ⟨C5_out_param_untouched.1 none (some "CPU".toList) 0 [] true (.ok {})
      (by decide),
   C5_out_param_untouched.2.1 (some ⟨⟨"m".toList, "CPU".toList, [], {}⟩⟩)
      (some []) none true .stdExc (by decide),
   C5_out_param_untouched.2.2.1 (some ⟨⟨"m".toList, "CPU".toList, [], {}⟩⟩)
      true .otherExc (by decide)⟩

/-- Claim C2: every status-returning boundary operation of either family,
called with any required pointer argument null, short-circuits to the
invalid-argument code without entering the guarded native region and without
writing any output parameter (the result is exactly invalidParam:
OV_STATUS_INVALID_C_PARAM, nothing written, body not entered).  In
particular, generate with a null pipeline handle produces no results
handle. -/
theorem C2_null_short_circuit :
    (∀ mp dev n props p ctor, (mp = none ∨ dev = none ∨ p = false) →
      ov_genai_whisper_pipeline_create mp dev n props p ctor =
        invalidParam) ∧
    (∀ pipe inp cfg r native, (pipe = none ∨ inp = none ∨ r = false) →
      ov_genai_whisper_pipeline_generate pipe inp cfg r native =
        invalidParam) ∧
    (∀ pipe c native, (pipe = none ∨ c = false) →
      ov_genai_whisper_pipeline_get_generation_config pipe c native =
        invalidParam) ∧
    (∀ pipe cfg native, (pipe = none ∨ cfg = none) →
      ov_genai_whisper_pipeline_set_generation_config pipe cfg native =
        invalidParam) ∧
    (∀ ctor, ov_genai_whisper_generation_config_create false ctor =
        invalidParam) ∧
    (∀ c l, (c = none ∨ l = none) →
      ov_genai_whisper_generation_config_set_language c l = invalidParam) ∧
    (∀ c t, (c = none ∨ t = none) →
      ov_genai_whisper_generation_config_set_task c t = invalidParam) ∧
    (∀ b, ov_genai_whisper_generation_config_set_return_timestamps none b =
        invalidParam) ∧
    (∀ c p, (c = none ∨ p = none) →
      ov_genai_whisper_generation_config_set_initial_prompt c p =
        invalidParam) ∧
    (∀ c hw, (c = none ∨ hw = none) →
      ov_genai_whisper_generation_config_set_hotwords c hw = invalidParam) ∧
    (∀ v,
      ov_genai_whisper_generation_config_set_max_initial_timestamp_index
        none v = invalidParam) ∧
    (∀ v, ov_genai_whisper_generation_config_set_decoder_start_token_id
        none v = invalidParam) ∧
    (∀ c ts, (c = none ∨ ts = none) →
      ov_genai_whisper_generation_config_set_suppress_tokens c ts =
        invalidParam) ∧
    (∀ c ts, (c = none ∨ ts = none) →
      ov_genai_whisper_generation_config_set_begin_suppress_tokens c ts =
        invalidParam) ∧
    (∀ d, ov_genai_whisper_decoded_results_create false d = invalidParam) ∧
    (∀ res t, (res = none ∨ t = false) →
      ov_genai_whisper_decoded_results_get_texts_size res t =
        invalidParam) ∧
    (∀ res i o osz, (res = none ∨ o = false) →
      ov_genai_whisper_decoded_results_get_text_at res i o osz =
        invalidParam) ∧
    (∀ res cs, (res = none ∨ cs = false) →
      ov_genai_whisper_decoded_results_get_chunks_size res cs =
        invalidParam) ∧
    (∀ res i ch, (res = none ∨ ch = false) →
      ov_genai_whisper_decoded_results_get_chunk_at res i ch =
        invalidParam) ∧
    (∀ res s ssz, (res = none ∨ s = false) →
      ov_genai_whisper_decoded_results_get_scores res s ssz =
        invalidParam) ∧
    (∀ res m, (res = none ∨ m = false) →
      ov_genai_whisper_decoded_results_get_perf_metrics res m =
        invalidParam) ∧
    (∀ met mn sd, (met = none ∨ mn = false ∨ sd = false) →
      ov_genai_whisper_perf_metrics_get_features_extraction_duration met mn
        sd = invalidParam) ∧
    (∀ mp dev n props p ctor, (mp = none ∨ dev = none ∨ p = false) →
      ov_genai_llm_pipeline_create mp dev n props p ctor = invalidParam) ∧
    (∀ pipe txt cfg st r native, (pipe = none ∨ txt = none ∨ r = false) →
      ov_genai_llm_pipeline_generate pipe txt cfg st r native =
        invalidParam) ∧
    (∀ native, ov_genai_llm_pipeline_start_chat none native =
        invalidParam) ∧
    (∀ native, ov_genai_llm_pipeline_finish_chat none native =
        invalidParam) ∧
    (∀ pipe c native, (pipe = none ∨ c = false) →
      ov_genai_llm_pipeline_get_generation_config pipe c native =
        invalidParam) ∧
    (∀ pipe cfg native, (pipe = none ∨ cfg = none) →
      ov_genai_llm_pipeline_set_generation_config pipe cfg native =
        invalidParam) ∧
    (∀ ctor, ov_genai_generation_config_create false ctor = invalidParam) ∧
    (∀ js c ctor, (js = none ∨ c = false) →
      ov_genai_generation_config_create_from_json js c ctor =
        invalidParam) ∧
    (∀ v, ov_genai_generation_config_set_max_new_tokens none v =
        invalidParam) ∧
    (∀ v, ov_genai_generation_config_set_max_length none v =
        invalidParam) ∧
    (∀ v, ov_genai_generation_config_set_temperature none v =
        invalidParam) ∧
    (∀ v, ov_genai_generation_config_set_top_p none v = invalidParam) ∧
    (∀ v, ov_genai_generation_config_set_top_k none v = invalidParam) ∧
    (∀ v, ov_genai_generation_config_set_do_sample none v = invalidParam) ∧
    (∀ v, ov_genai_generation_config_set_repetition_penalty none v =
        invalidParam) ∧
    (∀ v, ov_genai_generation_config_set_presence_penalty none v =
        invalidParam) ∧
    (∀ v, ov_genai_generation_config_set_frequency_penalty none v =
        invalidParam) ∧
    (∀ c ss, (c = none ∨ ss = none) →
      ov_genai_generation_config_set_stop_strings c ss = invalidParam) ∧
    (∀ c o, (c = none ∨ o = false) →
      ov_genai_generation_config_get_max_new_tokens c o = invalidParam) ∧
    (ov_genai_generation_config_validate none = invalidParam) ∧
    (∀ d, ov_genai_decoded_results_create false d = invalidParam) ∧
    (∀ res o osz, (res = none ∨ o = false) →
      ov_genai_decoded_results_get_string res o osz = invalidParam) ∧
    (∀ res m, (res = none ∨ m = false) →
      ov_genai_decoded_results_get_perf_metrics res m = invalidParam) := by
  refine ⟨?_, ?_, ?_, ?_, ?_, ?_, ?_, ?_, ?_, ?_, ?_, ?_, ?_, ?_, ?_, ?_,
    ?_, ?_, ?_, ?_, ?_, ?_, ?_, ?_, ?_, ?_, ?_, ?_, ?_, ?_, ?_, ?_, ?_, ?_,
    ?_, ?_, ?_, ?_, ?_, ?_, ?_, ?_, ?_, ?_, ?_⟩
  · intro mp dev n props p ctor h
    rcases h with rfl | rfl | rfl <;>
      simp [ov_genai_whisper_pipeline_create]
  · intro pipe inp cfg r native h
    rcases h with rfl | rfl | rfl <;>
      simp [ov_genai_whisper_pipeline_generate]
  · intro pipe c native h
    rcases h with rfl | rfl <;>
      simp [ov_genai_whisper_pipeline_get_generation_config]
  · intro pipe cfg native h
    rcases h with rfl | rfl <;>
      simp [ov_genai_whisper_pipeline_set_generation_config]
  · intro ctor
    simp [ov_genai_whisper_generation_config_create]
  · intro c l h
    rcases h with rfl | rfl <;>
      simp [ov_genai_whisper_generation_config_set_language]
  · intro c t h
    rcases h with rfl | rfl <;>
      simp [ov_genai_whisper_generation_config_set_task]
  · intro b
    simp [ov_genai_whisper_generation_config_set_return_timestamps]
  · intro c p h
    rcases h with rfl | rfl <;>
      simp [ov_genai_whisper_generation_config_set_initial_prompt]
  · intro c hw h
    rcases h with rfl | rfl <;>
      simp [ov_genai_whisper_generation_config_set_hotwords]
  · intro v
    simp [ov_genai_whisper_generation_config_set_max_initial_timestamp_index]
  · intro v
    simp [ov_genai_whisper_generation_config_set_decoder_start_token_id]
  · intro c ts h
    rcases h with rfl | rfl <;>
      simp [ov_genai_whisper_generation_config_set_suppress_tokens]
  · intro c ts h
    rcases h with rfl | rfl <;>
      simp [ov_genai_whisper_generation_config_set_begin_suppress_tokens]
  · intro d
    simp [ov_genai_whisper_decoded_results_create]
  · intro res t h
    rcases h with rfl | rfl <;>
      simp [ov_genai_whisper_decoded_results_get_texts_size]
  · intro res i o osz h
    rcases h with rfl | rfl <;>
      simp [ov_genai_whisper_decoded_results_get_text_at]
  · intro res cs h
    rcases h with rfl | rfl <;>
      simp [ov_genai_whisper_decoded_results_get_chunks_size]
  · intro res i ch h
    rcases h with rfl | rfl <;>
      simp [ov_genai_whisper_decoded_results_get_chunk_at]
  · intro res s ssz h
    rcases h with rfl | rfl <;>
      simp [ov_genai_whisper_decoded_results_get_scores]
  · intro res m h
    rcases h with rfl | rfl <;>
      simp [ov_genai_whisper_decoded_results_get_perf_metrics]
  · intro met mn sd h
    rcases h with rfl | rfl | rfl <;>
      simp [ov_genai_whisper_perf_metrics_get_features_extraction_duration]
  · intro mp dev n props p ctor h
    rcases h with rfl | rfl | rfl <;>
      simp [ov_genai_llm_pipeline_create]
  · intro pipe txt cfg st r native h
    rcases h with rfl | rfl | rfl <;>
      simp [ov_genai_llm_pipeline_generate]
  · intro native
    simp [ov_genai_llm_pipeline_start_chat]
  · intro native
    simp [ov_genai_llm_pipeline_finish_chat]
  · intro pipe c native h
    rcases h with rfl | rfl <;>
      simp [ov_genai_llm_pipeline_get_generation_config]
  · intro pipe cfg native h
    rcases h with rfl | rfl <;>
      simp [ov_genai_llm_pipeline_set_generation_config]
  · intro ctor
    simp [ov_genai_generation_config_create]
  · intro js c ctor h
    rcases h with rfl | rfl <;>
      simp [ov_genai_generation_config_create_from_json]
  · intro v
    simp [ov_genai_generation_config_set_max_new_tokens]
  · intro v
    simp [ov_genai_generation_config_set_max_length]
  · intro v
    simp [ov_genai_generation_config_set_temperature]
  · intro v
    simp [ov_genai_generation_config_set_top_p]
  · intro v
    simp [ov_genai_generation_config_set_top_k]
  · intro v
    simp [ov_genai_generation_config_set_do_sample]
  · intro v
    simp [ov_genai_generation_config_set_repetition_penalty]
  · intro v
    simp [ov_genai_generation_config_set_presence_penalty]
  · intro v
    simp [ov_genai_generation_config_set_frequency_penalty]
  · intro c ss h
    rcases h with rfl | rfl <;>
      simp [ov_genai_generation_config_set_stop_strings]
  · intro c o h
    rcases h with rfl | rfl <;>
      simp [ov_genai_generation_config_get_max_new_tokens]
  · simp [ov_genai_generation_config_validate]
  · intro d
    simp [ov_genai_decoded_results_create]
  · intro res o osz h
    rcases h with rfl | rfl <;>
      simp [ov_genai_decoded_results_get_string]
  · intro res m h
    rcases h with rfl | rfl <;>
      simp [ov_genai_decoded_results_get_perf_metrics]

/-- Witness for C2, the spec's own scenario: generate called with a null
pipeline handle (other arguments well formed, native call would succeed)
returns the invalid-argument status, produces no results handle, and never
enters the native region. -/
theorem C2_witness :
    ov_genai_whisper_pipeline_generate none (some [0]) none true
        (.ok sampleResults) = invalidParam :=
  C2_null_short_circuit.2.1 none (some [0]) none true (.ok sampleResults)
    (Or.inl rfl)

/-- Claim C1 counterexample: get_scores called with every required argument
non-null (a valid handle holding one native score, a non-null buffer) and a
declared capacity of 0.  The guarded body completes without any fault — it
executes its explicit bounds-check return — yet the operation returns
OV_STATUS_OUT_OF_BOUNDS, an outcome other than the success code and the two
translator failure codes, refuting "no other outcome is possible". -/
theorem C1_counterexample :
    (ov_genai_whisper_decoded_results_get_scores (some sampleW) true
        0).entered = true ∧
    (ov_genai_whisper_decoded_results_get_scores (some sampleW) true
        0).status = .OV_STATUS_OUT_OF_BOUNDS ∧
    ¬ translatorStatus
        (ov_genai_whisper_decoded_results_get_scores (some sampleW) true
          0).status := by
  decide

/-- Claim C1 (amended): the boundary discipline.  The translator macro maps a
body that runs to its end to the success code 0 (OV_STATUS_OK, whose numeric
value is 0), a standard-library error to OV_STATUS_GENERAL_ERROR, and any
other fault to OV_STATUS_UNKNOW_EXCEPTION; any further outcome can only be a
status an explicit in-body return produced.  Consequently every boundary
operation, called with non-null required arguments, returns one of those
three codes — except the indexed and bulk accessors (get_text_at,
get_chunk_at, get_scores), which may additionally return
OV_STATUS_OUT_OF_BOUNDS from their explicit bounds checks.  No fault crosses
the C boundary: every operation is a total function into the status
vocabulary. -/
theorem C1_translator_discipline :
    (ov_status_e.code .OV_STATUS_OK = 0) ∧
    (∀ (ε : Type) (e : ε),
      WHISPER_WRAPPER_TRY_CATCH (.completes e) = (.OV_STATUS_OK, e)) ∧
    (∀ (ε : Type) (e : ε),
      WHISPER_WRAPPER_TRY_CATCH (.stdExc e) =
        (.OV_STATUS_GENERAL_ERROR, e)) ∧
    (∀ (ε : Type) (e : ε),
      WHISPER_WRAPPER_TRY_CATCH (.otherExc e) =
        (.OV_STATUS_UNKNOW_EXCEPTION, e)) ∧
    (∀ (ε : Type) (b : BodyOutcome ε),
      translatorStatus (WHISPER_WRAPPER_TRY_CATCH b).1 ∨
      ∃ s e, b = .earlyReturn s e ∧ (WHISPER_WRAPPER_TRY_CATCH b).1 = s) ∧
    (∀ mp dev n props ctor, translatorStatus
      (ov_genai_whisper_pipeline_create (some mp) (some dev) n props true
        ctor).status) ∧
    (∀ p inp cfg native, translatorStatus
      (ov_genai_whisper_pipeline_generate (some p) (some inp) cfg true
        native).status) ∧
    (∀ p native, translatorStatus
      (ov_genai_whisper_pipeline_get_generation_config (some p) true
        native).status) ∧
    (∀ p c native, translatorStatus
      (ov_genai_whisper_pipeline_set_generation_config (some p) (some c)
        native).status) ∧
    (∀ ctor, translatorStatus
      (ov_genai_whisper_generation_config_create true ctor).status) ∧
    (∀ c l, translatorStatus
      (ov_genai_whisper_generation_config_set_language (some c)
        (some l)).status) ∧
    (∀ c t, translatorStatus
      (ov_genai_whisper_generation_config_set_task (some c)
        (some t)).status) ∧
    (∀ c b, translatorStatus
      (ov_genai_whisper_generation_config_set_return_timestamps (some c)
        b).status) ∧
    (∀ c p, translatorStatus
      (ov_genai_whisper_generation_config_set_initial_prompt (some c)
        (some p)).status) ∧
    (∀ c hw, translatorStatus
      (ov_genai_whisper_generation_config_set_hotwords (some c)
        (some hw)).status) ∧
    (∀ c v, translatorStatus
      (ov_genai_whisper_generation_config_set_max_initial_timestamp_index
        (some c) v).status) ∧
    (∀ c v, translatorStatus
      (ov_genai_whisper_generation_config_set_decoder_start_token_id
        (some c) v).status) ∧
    (∀ c ts, translatorStatus
      (ov_genai_whisper_generation_config_set_suppress_tokens (some c)
        (some ts)).status) ∧
    (∀ c ts, translatorStatus
      (ov_genai_whisper_generation_config_set_begin_suppress_tokens (some c)
        (some ts)).status) ∧
    (∀ d, translatorStatus
      (ov_genai_whisper_decoded_results_create true d).status) ∧
    (∀ w, translatorStatus
      (ov_genai_whisper_decoded_results_get_texts_size (some w)
        true).status) ∧
    (∀ w i osz, translatorOrBoundStatus
      (ov_genai_whisper_decoded_results_get_text_at (some w) i true
        osz).status) ∧
    (∀ w, translatorStatus
      (ov_genai_whisper_decoded_results_get_chunks_size (some w)
        true).status) ∧
    (∀ w i, translatorOrBoundStatus
      (ov_genai_whisper_decoded_results_get_chunk_at (some w) i
        true).status) ∧
    (∀ w ssz, translatorOrBoundStatus
      (ov_genai_whisper_decoded_results_get_scores (some w) true
        ssz).status) ∧
    (∀ w, translatorStatus
      (ov_genai_whisper_decoded_results_get_perf_metrics (some w)
        true).status) ∧
    (∀ m, translatorStatus
      (ov_genai_whisper_perf_metrics_get_features_extraction_duration
        (some m) true true).status) ∧
    (∀ mp dev n props ctor, translatorStatus
      (ov_genai_llm_pipeline_create (some mp) (some dev) n props true
        ctor).status) ∧
    (∀ p txt cfg st native, translatorStatus
      (ov_genai_llm_pipeline_generate (some p) (some txt) cfg st true
        native).status) ∧
    (∀ p native, translatorStatus
      (ov_genai_llm_pipeline_start_chat (some p) native).status) ∧
    (∀ p native, translatorStatus
      (ov_genai_llm_pipeline_finish_chat (some p) native).status) ∧
    (∀ p native, translatorStatus
      (ov_genai_llm_pipeline_get_generation_config (some p) true
        native).status) ∧
    (∀ p c native, translatorStatus
      (ov_genai_llm_pipeline_set_generation_config (some p) (some c)
        native).status) ∧
    (∀ ctor, translatorStatus
      (ov_genai_generation_config_create true ctor).status) ∧
    (∀ js ctor, translatorStatus
      (ov_genai_generation_config_create_from_json (some js) true
        ctor).status) ∧
    (∀ c v, translatorStatus
      (ov_genai_generation_config_set_max_new_tokens (some c) v).status) ∧
    (∀ c v, translatorStatus
      (ov_genai_generation_config_set_max_length (some c) v).status) ∧
    (∀ c v, translatorStatus
      (ov_genai_generation_config_set_temperature (some c) v).status) ∧
    (∀ c v, translatorStatus
      (ov_genai_generation_config_set_top_p (some c) v).status) ∧
    (∀ c v, translatorStatus
      (ov_genai_generation_config_set_top_k (some c) v).status) ∧
    (∀ c v, translatorStatus
      (ov_genai_generation_config_set_do_sample (some c) v).status) ∧
    (∀ c v, translatorStatus
      (ov_genai_generation_config_set_repetition_penalty (some c)
        v).status) ∧
    (∀ c v, translatorStatus
      (ov_genai_generation_config_set_presence_penalty (some c)
        v).status) ∧
    (∀ c v, translatorStatus
      (ov_genai_generation_config_set_frequency_penalty (some c)
        v).status) ∧
    (∀ c ss, translatorStatus
      (ov_genai_generation_config_set_stop_strings (some c)
        (some ss)).status) ∧
    (∀ c, translatorStatus
      (ov_genai_generation_config_get_max_new_tokens (some c)
        true).status) ∧
    (∀ c, translatorStatus
      (ov_genai_generation_config_validate (some c)).status) ∧
    (∀ d, translatorStatus
      (ov_genai_decoded_results_create true d).status) ∧
    (∀ w osz, translatorStatus
      (ov_genai_decoded_results_get_string (some w) true osz).status) ∧
    (∀ w, translatorStatus
      (ov_genai_decoded_results_get_perf_metrics (some w) true).status) := by
  refine ⟨rfl, fun ε e => rfl, fun ε e => rfl, fun ε e => rfl, ?_, ?_, ?_,
    ?_, ?_, ?_, ?_, ?_, ?_, ?_, ?_, ?_, ?_, ?_, ?_, ?_, ?_, ?_, ?_, ?_, ?_,
    ?_, ?_, ?_, ?_, ?_, ?_, ?_, ?_, ?_, ?_, ?_, ?_, ?_, ?_, ?_, ?_, ?_, ?_,
    ?_, ?_, ?_, ?_, ?_, ?_, ?_⟩
  · intro ε b
    cases b with
    | completes e => exact Or.inl (Or.inl rfl)
    | earlyReturn s e => exact Or.inr ⟨s, e, rfl, rfl⟩
    | stdExc e => exact Or.inl (Or.inr (Or.inl rfl))
    | otherExc e => exact Or.inl (Or.inr (Or.inr rfl))
  · intro mp dev n props ctor
    cases ctor <;> simp [translatorStatus,
      ov_genai_whisper_pipeline_create, runBody, WHISPER_WRAPPER_TRY_CATCH]
  · intro p inp cfg native
    cases native <;> simp [translatorStatus,
      ov_genai_whisper_pipeline_generate, runBody,
      WHISPER_WRAPPER_TRY_CATCH]
  · intro p native
    cases native <;> simp [translatorStatus,
      ov_genai_whisper_pipeline_get_generation_config, runBody,
      WHISPER_WRAPPER_TRY_CATCH]
  · intro p c native
    cases native <;> simp [translatorStatus,
      ov_genai_whisper_pipeline_set_generation_config, runBody,
      WHISPER_WRAPPER_TRY_CATCH]
  · intro ctor
    cases ctor <;> simp [translatorStatus,
      ov_genai_whisper_generation_config_create, runBody,
      WHISPER_WRAPPER_TRY_CATCH]
  · intro c l
    simp [translatorStatus,
      ov_genai_whisper_generation_config_set_language, runBody,
      WHISPER_WRAPPER_TRY_CATCH]
  · intro c t
    simp [translatorStatus, ov_genai_whisper_generation_config_set_task,
      runBody, WHISPER_WRAPPER_TRY_CATCH]
  · intro c b
    simp [translatorStatus,
      ov_genai_whisper_generation_config_set_return_timestamps, runBody,
      WHISPER_WRAPPER_TRY_CATCH]
  · intro c p
    simp [translatorStatus,
      ov_genai_whisper_generation_config_set_initial_prompt, runBody,
      WHISPER_WRAPPER_TRY_CATCH]
  · intro c hw
    simp [translatorStatus,
      ov_genai_whisper_generation_config_set_hotwords, runBody,
      WHISPER_WRAPPER_TRY_CATCH]
  · intro c v
    simp [translatorStatus,
      ov_genai_whisper_generation_config_set_max_initial_timestamp_index,
      runBody, WHISPER_WRAPPER_TRY_CATCH]
  · intro c v
    simp [translatorStatus,
      ov_genai_whisper_generation_config_set_decoder_start_token_id,
      runBody, WHISPER_WRAPPER_TRY_CATCH]
  · intro c ts
    simp [translatorStatus,
      ov_genai_whisper_generation_config_set_suppress_tokens, runBody,
      WHISPER_WRAPPER_TRY_CATCH]
  · intro c ts
    simp [translatorStatus,
      ov_genai_whisper_generation_config_set_begin_suppress_tokens, runBody,
      WHISPER_WRAPPER_TRY_CATCH]
  · intro d
    simp [translatorStatus, ov_genai_whisper_decoded_results_create,
      runBody, WHISPER_WRAPPER_TRY_CATCH]
  · intro w
    simp [translatorStatus,
      ov_genai_whisper_decoded_results_get_texts_size, runBody,
      WHISPER_WRAPPER_TRY_CATCH]
  · intro w i osz
    by_cases h : w.results.texts.length ≤ i <;>
      simp [translatorOrBoundStatus, translatorStatus,
        ov_genai_whisper_decoded_results_get_text_at, runBody,
        WHISPER_WRAPPER_TRY_CATCH, h]
  · intro w
    simp [translatorStatus,
      ov_genai_whisper_decoded_results_get_chunks_size, runBody,
      WHISPER_WRAPPER_TRY_CATCH]
  · intro w i
    by_cases h : w.results.chunks.length ≤ i <;>
      simp [translatorOrBoundStatus, translatorStatus,
        ov_genai_whisper_decoded_results_get_chunk_at, runBody,
        WHISPER_WRAPPER_TRY_CATCH, h]
  · intro w ssz
    by_cases h : ssz < w.results.scores.length <;>
      simp [translatorOrBoundStatus, translatorStatus,
        ov_genai_whisper_decoded_results_get_scores, runBody,
        WHISPER_WRAPPER_TRY_CATCH, h]
  · intro w
    simp [translatorStatus,
      ov_genai_whisper_decoded_results_get_perf_metrics, runBody,
      WHISPER_WRAPPER_TRY_CATCH]
  · intro m
    simp [translatorStatus,
      ov_genai_whisper_perf_metrics_get_features_extraction_duration,
      runBody, WHISPER_WRAPPER_TRY_CATCH]
  · intro mp dev n props ctor
    cases ctor <;> simp [translatorStatus, ov_genai_llm_pipeline_create,
      runBody, WHISPER_WRAPPER_TRY_CATCH]
  · intro p txt cfg st native
    cases native <;> simp [translatorStatus, ov_genai_llm_pipeline_generate,
      runBody, WHISPER_WRAPPER_TRY_CATCH]
  · intro p native
    cases native <;> simp [translatorStatus,
      ov_genai_llm_pipeline_start_chat, runBody, WHISPER_WRAPPER_TRY_CATCH]
  · intro p native
    cases native <;> simp [translatorStatus,
      ov_genai_llm_pipeline_finish_chat, runBody, WHISPER_WRAPPER_TRY_CATCH]
  · intro p native
    cases native <;> simp [translatorStatus,
      ov_genai_llm_pipeline_get_generation_config, runBody,
      WHISPER_WRAPPER_TRY_CATCH]
  · intro p c native
    cases native <;> simp [translatorStatus,
      ov_genai_llm_pipeline_set_generation_config, runBody,
      WHISPER_WRAPPER_TRY_CATCH]
  · intro ctor
    cases ctor <;> simp [translatorStatus,
      ov_genai_generation_config_create, runBody, WHISPER_WRAPPER_TRY_CATCH]
  · intro js ctor
    cases ctor <;> simp [translatorStatus,
      ov_genai_generation_config_create_from_json, runBody,
      WHISPER_WRAPPER_TRY_CATCH]
  · intro c v
    simp [translatorStatus, ov_genai_generation_config_set_max_new_tokens,
      runBody, WHISPER_WRAPPER_TRY_CATCH]
  · intro c v
    simp [translatorStatus, ov_genai_generation_config_set_max_length,
      runBody, WHISPER_WRAPPER_TRY_CATCH]
  · intro c v
    simp [translatorStatus, ov_genai_generation_config_set_temperature,
      runBody, WHISPER_WRAPPER_TRY_CATCH]
  · intro c v
    simp [translatorStatus, ov_genai_generation_config_set_top_p, runBody,
      WHISPER_WRAPPER_TRY_CATCH]
  · intro c v
    simp [translatorStatus, ov_genai_generation_config_set_top_k, runBody,
      WHISPER_WRAPPER_TRY_CATCH]
  · intro c v
    simp [translatorStatus, ov_genai_generation_config_set_do_sample,
      runBody, WHISPER_WRAPPER_TRY_CATCH]
  · intro c v
    simp [translatorStatus,
      ov_genai_generation_config_set_repetition_penalty, runBody,
      WHISPER_WRAPPER_TRY_CATCH]
  · intro c v
    simp [translatorStatus,
      ov_genai_generation_config_set_presence_penalty, runBody,
      WHISPER_WRAPPER_TRY_CATCH]
  · intro c v
    simp [translatorStatus,
      ov_genai_generation_config_set_frequency_penalty, runBody,
      WHISPER_WRAPPER_TRY_CATCH]
  · intro c ss
    simp [translatorStatus, ov_genai_generation_config_set_stop_strings,
      runBody, WHISPER_WRAPPER_TRY_CATCH]
  · intro c
    simp [translatorStatus, ov_genai_generation_config_get_max_new_tokens,
      runBody, WHISPER_WRAPPER_TRY_CATCH]
  · intro c
    simp [translatorStatus, ov_genai_generation_config_validate, runBody,
      WHISPER_WRAPPER_TRY_CATCH]
  · intro d
    simp [translatorStatus, ov_genai_decoded_results_create, runBody,
      WHISPER_WRAPPER_TRY_CATCH]
  · intro w osz
    simp [translatorStatus, ov_genai_decoded_results_get_string, runBody,
      WHISPER_WRAPPER_TRY_CATCH]
  · intro w
    simp [translatorStatus, ov_genai_decoded_results_get_perf_metrics,
      runBody, WHISPER_WRAPPER_TRY_CATCH]

end WhisperWrap
